import Mathlib

/-!
Shallow embedding of the RFC 23 DID-exchange connection manager
(`aries_cloudagent/protocols/didexchange/v1_0/manager.py`, class `Conn23Manager`)
and of the collaborator interfaces it consumes (record store, wallet, cache,
responder), together with proofs about its connection-lifecycle operations.

Stateful Python methods become explicit state-passing functions; fallible code
returns `Except`.  Collaborator classes that live outside the embedded source
(`Conn23Record` retrieval, `DIDDoc`, `BaseStorage`, `BaseWallet`, `BaseCache`)
are modelled from the specification's interface contracts and marked as such.
The router-chain walk in `create_did_document` is a `while` loop in the source;
it is embedded with an explicit fuel parameter bounding the number of hops.
-/

/-- Connection record state (source: `Conn23Record.STATE_*`). -/
inductive CState
  | invitation
  | request
  | response
  | completed
  | abandoned
deriving DecidableEq, Repr

/-- Connection role from our viewpoint (source: `Conn23Record.Role`). -/
inductive CRole
  | requester
  | responder
deriving DecidableEq, Repr

/-- The role of the other party when ours is the given one. -/
def CRole.opposite : CRole → CRole
  | .requester => .responder
  | .responder => .requester

/-- Accept policy (source: `Conn23Record.ACCEPT_AUTO` / `ACCEPT_MANUAL`). -/
inductive CAccept
  | auto
  | manual
deriving DecidableEq, Repr

/-- Invitation mode (source: `Conn23Record.INVITATION_MODE_ONCE` / `_MULTI`). -/
inductive InvMode
  | once
  | multi
deriving DecidableEq, Repr

/-- Routing state (source: `Conn23Record.ROUTING_STATE_*`). -/
inductive RoutingState
  | rsNone
  | rsRequest
  | rsActive
  | rsError
deriving DecidableEq, Repr

/-- Problem-report codes (source: `ProblemReportReason`). -/
inductive ProblemCode
  | request_not_accepted
  | response_not_accepted
  | complete_not_accepted
deriving DecidableEq, Repr

/-- Errors raised by the embedded operations.  Each constructor corresponds to
one raise site in the source: `Conn23ManagerError`s, storage errors, wallet
errors, the Python `IndexError` in `create_request`, and a fuel-exhaustion
artifact of embedding the router-walk `while` loop. -/
inductive Err
  | publicInvitesDisabled
  | noPublicDid
  | multiUseWithPublic
  | invitationNotFound
  | missingAttachData
  | sigVerifyFailed
  | didMismatchRequest
  | unmatchedResponse
  | wrongState (st : CState)
  | noDidDocAttached
  | attachNotSigned
  | didMismatchResponse
  | completeNotAccepted
  | routerNotCompleted
  | routingNoServices
  | routingNoEndpoint
  | routingNoRecipKeys
  | storageNotFound
  | storageDuplicate
  | walletNotFound
  | walletError
  | assertionFailed
  | indexError
  | fuelExhausted
deriving DecidableEq, Repr

/-- The problem-report code attached to an error, when the corresponding raise
site in the source passes an `error_code`. -/
def Err.problemCode : Err → Option ProblemCode
  | .didMismatchRequest => some .request_not_accepted
  | .unmatchedResponse => some .response_not_accepted
  | .completeNotAccepted => some .complete_not_accepted
  | _ => none

/-- Whether the error is a `Conn23ManagerError` (as opposed to a storage error,
a wallet error, a bare Python `IndexError`, or the embedding's fuel artifact). -/
def Err.isConn23ManagerError : Err → Bool
  | .storageNotFound => false
  | .storageDuplicate => false
  | .walletNotFound => false
  | .walletError => false
  | .assertionFailed => false
  | .indexError => false
  | .fuelExhausted => false
  | _ => true

/-- Modelled from the spec: a DID Document public key (the `PublicKey` class of
`connections/models/diddoc` is not under `src/`): controller, type, base58
value, authorization bit, keyed by `ident`. -/
structure PublicKey where
  did : String
  ident : String
  value : String
  keyType : String := "Ed25519VerificationKey2018"
  controller : String
  authn : Bool
deriving DecidableEq, Repr

/-- Modelled from the spec: a DID Document service (the `Service` class of
`connections/models/diddoc` is not under `src/`): id, type, recipient keys,
routing keys, endpoint (empty string standing for an absent endpoint, matching
Python truthiness on the attribute). -/
structure Service where
  did : String
  ident : String
  stype : String
  recip_keys : List PublicKey
  routing_keys : List PublicKey
  endpoint : String
deriving DecidableEq, Repr

/-- Modelled from the spec: a DID Document is a DID, a keyed map of public keys
and a keyed map of services (the `DIDDoc` class is not under `src/`).  The
keyed maps are association lists keyed by `ident`, in insertion order. -/
structure DIDDoc where
  did : String
  pubkey : List PublicKey := []
  service : List Service := []
deriving DecidableEq, Repr

/-- Modelled from the spec: `DIDDoc.set` on a public key replaces the entry
with the same id or appends. -/
def DIDDoc.setKey (d : DIDDoc) (pk : PublicKey) : DIDDoc :=
  if d.pubkey.any (fun k => k.ident == pk.ident) then
    { d with pubkey := d.pubkey.map (fun k => if k.ident == pk.ident then pk else k) }
  else
    { d with pubkey := d.pubkey ++ [pk] }

/-- Modelled from the spec: `DIDDoc.set` on a service replaces the entry with
the same id or appends. -/
def DIDDoc.setService (d : DIDDoc) (svc : Service) : DIDDoc :=
  if d.service.any (fun s => s.ident == svc.ident) then
    { d with service := d.service.map (fun s => if s.ident == svc.ident then svc else s) }
  else
    { d with service := d.service ++ [svc] }

/-- Wallet DID information (source: `DIDInfo`; the `public` metadata flag is
carried inline). -/
structure DIDInfo where
  did : String
  verkey : String
  isPublic : Bool := false
deriving DecidableEq, Repr

/-- Modelled from the spec: one persisted storage record; the core persists
type `did_doc` (tags `{did}`, value the serialized document) and type
`did_key` (tags `{did, key}`, value the key). -/
inductive StoreRec
  | didDocRec (did : String) (doc : DIDDoc)
  | didKeyRec (did : String) (key : String)
deriving DecidableEq, Repr

/-- Modelled from the spec: the record store is the list of stored records, in
insertion order. -/
abbrev Storage := List StoreRec

/-- Whether a storage record is the `did_doc` record for `did`. -/
def StoreRec.isDocFor (did : String) : StoreRec → Bool
  | .didDocRec d _ => d == did
  | .didKeyRec _ _ => false

/-- Whether a storage record is a `did_key` record for `did`. -/
def StoreRec.isKeyFor (did : String) : StoreRec → Bool
  | .didDocRec _ _ => false
  | .didKeyRec d _ => d == did

/-- All `did_doc` records stored for `did`. -/
def docRecsFor (did : String) (s : Storage) : Storage :=
  s.filter (StoreRec.isDocFor did)

/-- All `did_key` records stored for `did`. -/
def keyRecsFor (did : String) (s : Storage) : Storage :=
  s.filter (StoreRec.isKeyFor did)

/-- Source `Conn23Manager.fetch_did_document`: single-result search for the
`did_doc` record tagged with `did`. -/
def fetch_did_document (s : Storage) (did : String) : Except Err DIDDoc :=
  match docRecsFor did s with
  | [] => .error .storageNotFound
  | [r] =>
    match r with
    | .didDocRec _ d => .ok d
    | .didKeyRec _ _ => .error .storageNotFound
  | _ :: _ :: _ => .error .storageDuplicate

/-- Source `Conn23Manager.remove_keys_for_did`: delete every `did_key` record
tagged with `did`. -/
def remove_keys_for_did (s : Storage) (did : String) : Storage :=
  s.filter (fun r => !(r.isKeyFor did))

/-- Source `Conn23Manager.add_key_for_did`: append one `did_key` record. -/
def add_key_for_did (s : Storage) (did : String) (key : String) : Storage :=
  s ++ [.didKeyRec did key]

/-- The key entries `store_did_document` writes for `doc`: one per public key
of the document whose controller is the document's DID. -/
def keyEntries (doc : DIDDoc) : Storage :=
  (doc.pubkey.filter (fun k => k.controller == doc.did)).map
    (fun k => .didKeyRec doc.did k.value)

/-- The key-insertion loop at the end of `store_did_document`. -/
def addKeysLoop (doc : DIDDoc) (s : Storage) : Storage :=
  doc.pubkey.foldl
    (fun acc k =>
      if k.controller == doc.did then add_key_for_did acc doc.did k.value else acc)
    s

/-- Source `Conn23Manager.store_did_document`: upsert the `did_doc` record by
DID, then delete all `did_key` records for that DID, then insert one `did_key`
record per public key whose controller matches the document's DID. -/
def store_did_document (s : Storage) (doc : DIDDoc) : Except Err Storage :=
  if doc.did == "" then .error .assertionFailed
  else
    match docRecsFor doc.did s with
    | [] =>
      let s1 := s ++ [StoreRec.didDocRec doc.did doc]
      .ok (addKeysLoop doc (remove_keys_for_did s1 doc.did))
    | [_] =>
      let s1 := s.map
        (fun r => if r.isDocFor doc.did then StoreRec.didDocRec doc.did doc else r)
      .ok (addKeysLoop doc (remove_keys_for_did s1 doc.did))
    | _ :: _ :: _ => .error .storageDuplicate

/-- Source `Conn23Manager.find_did_for_key`: single-result search for the
`did_key` record tagged with `key`, returning its DID tag. -/
def find_did_for_key (s : Storage) (key : String) : Except Err String :=
  match s.find? (fun r => match r with | .didKeyRec _ k => k == key | _ => false) with
  | some (.didKeyRec d _) => .ok d
  | _ => .error .storageNotFound

/-- The central connection record (source: `Conn23Record`, modelled from the
spec's data model since the class is not under `src/`).  `connection_id` is the
unique identity; other fields as in the source constructor calls. -/
structure Conn23Record where
  connection_id : Nat
  my_did : Option String := none
  their_did : Option String := none
  invitation_key : Option String := none
  their_label : Option String := none
  their_role : Option CRole := none
  state : CState := CState.invitation
  accept : CAccept := CAccept.manual
  invitation_mode : InvMode := InvMode.once
  request_id : Option String := none
  inbound_connection_id : Option Nat := none
  routing_state : RoutingState := RoutingState.rsNone
  conn_alias : Option String := none
deriving DecidableEq, Repr

/-- Modelled from the spec: the typed record store holding connection records,
keyed by `connection_id`. -/
abbrev RecordStore := List Conn23Record

/-- Modelled from the spec: `Conn23Record.save` upserts by `connection_id`. -/
def saveRecord (s : RecordStore) (r : Conn23Record) : RecordStore :=
  if s.any (fun x => x.connection_id == r.connection_id) then
    s.map (fun x => if x.connection_id == r.connection_id then r else x)
  else
    s ++ [r]

/-- A connection id distinct from every id present in the store (stands for
the fresh identifier the source draws when constructing a new record). -/
def freshId (s : RecordStore) : Nat :=
  (s.map (fun r => r.connection_id)).foldr max 0 + 1

/-- Modelled from the spec: `Conn23Record.retrieve_by_id`. -/
def retrieve_by_id (s : RecordStore) (cid : Nat) : Option Conn23Record :=
  s.find? (fun r => r.connection_id == cid)

/-- Modelled from the spec: `Conn23Record.retrieve_by_request_id`, a tag query
on the thread id of our sent or received request. -/
def retrieve_by_request_id (s : RecordStore) (tid : String) : Option Conn23Record :=
  s.find? (fun r => r.request_id == some tid)

/-- Modelled from the spec: `Conn23Record.retrieve_by_did`, a tag query on
`their_did`, optionally `my_did`, and optionally our role (a record stores the
other party's role, so filtering on `my_role` matches its opposite). -/
def retrieve_by_did (s : RecordStore) (their_did : String) (my_did : Option String)
    (my_role : Option CRole) : Option Conn23Record :=
  s.find? (fun r =>
    r.their_did == some their_did
    && (match my_did with
        | none => true
        | some d => r.my_did == some d)
    && (match my_role with
        | none => true
        | some mr => r.their_role == some mr.opposite))

/-- Modelled from the spec: `Conn23Record.retrieve_by_invitation_key`, a tag
query on the invitation key and our role. -/
def retrieve_by_invitation_key (s : RecordStore) (key : String) (my_role : CRole) :
    Option Conn23Record :=
  s.find? (fun r =>
    r.invitation_key == some key && r.their_role == some my_role.opposite)

/-- Modelled from the spec: the wallet.  Known local DIDs, a supply stream of
DIDs that `create_local_did` mints in order, a supply stream of signing keys,
and the optional public DID. -/
structure Wallet where
  locals : List DIDInfo := []
  supply : List DIDInfo := []
  keySupply : List String := []
  publicDid : Option DIDInfo := none
deriving DecidableEq, Repr

/-- Modelled from the spec: `wallet.get_local_did`. -/
def Wallet.get_local_did (w : Wallet) (did : String) : Except Err DIDInfo :=
  match w.locals.find? (fun d => d.did == did) with
  | some d => .ok d
  | none => .error .walletNotFound

/-- Modelled from the spec: `wallet.get_local_did_for_verkey`. -/
def Wallet.get_local_did_for_verkey (w : Wallet) (verkey : String) : Except Err DIDInfo :=
  match w.locals.find? (fun d => d.verkey == verkey) with
  | some d => .ok d
  | none => .error .walletNotFound

/-- Modelled from the spec: `wallet.create_local_did` mints the next DID of the
supply and records it among the local DIDs. -/
def Wallet.create_local_did (w : Wallet) : Except Err (DIDInfo × Wallet) :=
  match w.supply with
  | [] => .error .walletError
  | d :: rest => .ok (d, { w with locals := w.locals ++ [d], supply := rest })

/-- Modelled from the spec: `wallet.create_signing_key` mints the next verkey
of the key supply. -/
def Wallet.create_signing_key (w : Wallet) : Except Err (String × Wallet) :=
  match w.keySupply with
  | [] => .error .walletError
  | k :: rest => .ok (k, { w with keySupply := rest })

/-- A signed DID Document attachment.  `hasData` is the presence of
`attach.data`; `signedPresent` the presence of the detached-signature bytes;
`sigValid` the outcome the wallet's `verify` returns on it; `doc` the DID
Document the signed bytes deserialize to. -/
structure SignedAttach where
  hasData : Bool := true
  signedPresent : Bool := true
  sigValid : Bool
  doc : DIDDoc
deriving DecidableEq, Repr

/-- Signing an attachment over a serialized DID Document: the produced detached
signature is present and verifies. -/
def signAttach (doc : DIDDoc) (_verkey : String) : SignedAttach :=
  { hasData := true, signedPresent := true, sigValid := true, doc := doc }

/-- Source `Conn23Request` message: id, label, did, signed DID Document
attachment, thread decorator. -/
structure Conn23Request where
  msgId : String
  label : Option String := none
  did : String
  did_doc_attach : Option SignedAttach := none
  thid : Option String := none
  pthid : Option String := none
deriving DecidableEq, Repr

/-- The thread id of a request: its `thid` if threaded, else its own id. -/
def Conn23Request.threadId (r : Conn23Request) : String :=
  r.thid.getD r.msgId

/-- Source `Conn23Response` message. -/
structure Conn23Response where
  thread : Option String := none
  did : String
  did_doc_attach : Option SignedAttach := none
deriving DecidableEq, Repr

/-- Source `Conn23Complete` message: thread correlation only. -/
structure Conn23Complete where
  thread : Option String := none
deriving DecidableEq, Repr

/-- Messages dispatched through the responder. -/
inductive SentMsg
  | request (r : Conn23Request)
  | response (r : Conn23Response)
  | complete (thid : Option String)
deriving DecidableEq, Repr

/-- Source OOB invitation inline service block. -/
structure OOBService where
  ident : String
  stype : String
  recipient_keys : List String
  service_endpoint : Option String
deriving DecidableEq, Repr

/-- An entry of the OOB invitation's `service` list: either a service DID or an
inline service block. -/
inductive OOBServiceEntry
  | did (s : String)
  | block (b : OOBService)
deriving DecidableEq, Repr

/-- Source `OOBInvitation` message. -/
structure OOBInvitation where
  label : Option String := none
  handshake_protocols : List String := []
  service : List OOBServiceEntry := []
deriving DecidableEq, Repr

/-- Ambient context of one inbound message (source: `MessageReceipt`). -/
structure MessageReceipt where
  sender_verkey : Option String := none
  recipient_verkey : Option String := none
  sender_did : Option String := none
  recipient_did : Option String := none
  recipient_did_public : Bool := false
deriving DecidableEq, Repr

/-- The injection-context settings the manager reads. -/
structure Settings where
  public_invites : Bool := false
  default_label : Option String := none
  default_endpoint : Option String := none
  additional_endpoints : List String := []
  debug_auto_accept_requests : Bool := false
  debug_auto_accept_invites : Bool := false
deriving DecidableEq, Repr

/-- The manager's injection context: settings plus whether a responder is
available for dispatching replies. -/
structure Ctx where
  settings : Settings := {}
  hasResponder : Bool := false
deriving DecidableEq, Repr

/-- The authoritative shared state the manager operates on: connection records,
the DID-document store, the wallet, and the per-record auxiliary attachments
(the original request and invitation kept alongside a record). -/
structure AgentState where
  recs : RecordStore := []
  store : Storage := []
  wallet : Wallet := {}
  reqAtt : List (Nat × Conn23Request) := []
  invAtt : List (Nat × OOBInvitation) := []
deriving DecidableEq, Repr

/-- Modelled from the spec: `connection.retrieve_request` fetches the request
attached alongside the record. -/
def retrieve_request (st : AgentState) (c : Conn23Record) : Option Conn23Request :=
  (st.reqAtt.find? (fun p => p.1 == c.connection_id)).map (fun p => p.2)

/-- Modelled from the spec: `connection.retrieve_invitation` fetches the
invitation attached alongside the record. -/
def retrieve_invitation (st : AgentState) (c : Conn23Record) : Option OOBInvitation :=
  (st.invAtt.find? (fun p => p.1 == c.connection_id)).map (fun p => p.2)

/-- Modelled from the spec: `naked_to_did_key` wraps a verkey as a did:key
identifier (the utility lives outside `src/`; the manager treats the exact
encoding as an abstract wrapper). -/
def naked_to_did_key (verkey : String) : String :=
  "did:key:z" ++ verkey

/-- The primary public key `create_did_document` always emits: type
Ed25519VerificationKey2018, id `1`, controller the DID itself, authorized. -/
def primaryKey (did_info : DIDInfo) : PublicKey :=
  { did := did_info.did, ident := "1", value := did_info.verkey,
    controller := did_info.did, authn := true }

/-- The routing public key minted for one router hop: id `routing-{idx}`, value
the first recipient key of the router's first service.  The source sets
`router_idx` to 1 at the start and never increments it. -/
def routingKey (did_info : DIDInfo) (idx : Nat) (rk0 : PublicKey) : PublicKey :=
  { did := did_info.did, ident := "routing-" ++ toString idx, value := rk0.value,
    controller := did_info.did, authn := true }

/-- The service ident `indy` for index 0 and `indy{n}` thereafter. -/
def serviceIdent (i : Nat) : String :=
  if i = 0 then "indy" else "indy" ++ toString i

/-- The `while router_id:` loop of `create_did_document`, walking the chain of
inbound routers.  Carries the accumulated routing keys, the (never
incremented) `router_idx`, and the current endpoint override; `fuel` bounds the
number of hops (the source loops until the chain ends). -/
def walkRouters (recs : RecordStore) (store : Storage) (did_info : DIDInfo) :
    Nat → Option Nat → List PublicKey → Nat → List String →
    Except Err (List PublicKey × List String)
  | _, none, rks, _, eps => .ok (rks, eps)
  | 0, some _, _, _, _ => .error .fuelExhausted
  | fuel + 1, some rid, rks, idx, _eps =>
    match retrieve_by_id recs rid with
    | none => .error .storageNotFound
    | some router =>
      if router.state = CState.completed then
        match router.their_did with
        | none => .error .storageNotFound
        | some tdid =>
          match fetch_did_document store tdid with
          | .error e => .error e
          | .ok rdoc =>
            match rdoc.service with
            | [] => .error .routingNoServices
            | svc :: _ =>
              if svc.endpoint = "" then .error .routingNoEndpoint
              else
                match svc.recip_keys with
                | [] => .error .routingNoRecipKeys
                | rk0 :: _ =>
                  walkRouters recs store did_info fuel router.inbound_connection_id
                    (rks ++ [routingKey did_info idx rk0]) idx [svc.endpoint]
      else .error .routerNotCompleted

/-- The service-emission loop at the end of `create_did_document`: one
`IndyAgent` service per final endpoint, recipient keys the primary key,
routing keys the collected chain. -/
def addServices (did : String) (pk : PublicKey) (rks : List PublicKey) :
    DIDDoc → Nat → List String → DIDDoc
  | doc, _, [] => doc
  | doc, i, ep :: rest =>
    addServices did pk rks
      (doc.setService
        { did := did, ident := serviceIdent i, stype := "IndyAgent",
          recip_keys := [pk], routing_keys := rks, endpoint := ep })
      (i + 1) rest

/-- Source `Conn23Manager.create_did_document`: primary key, router-chain walk
(which overrides the endpoints), then one service per endpoint. -/
def create_did_document (fuel : Nat) (recs : RecordStore) (store : Storage)
    (did_info : DIDInfo) (inbound_connection_id : Option Nat)
    (svc_endpoints : List String) : Except Err DIDDoc :=
  let pk := primaryKey did_info
  let doc0 := DIDDoc.setKey { did := did_info.did } pk
  match walkRouters recs store did_info fuel inbound_connection_id [] 1 svc_endpoints with
  | .error e => .error e
  | .ok (routing_keys, eps) => .ok (addServices did_info.did pk routing_keys doc0 0 eps)

/-- The per-service lists of routing-key idents of a document. -/
def routingIdentsOfDoc (d : DIDDoc) : List (List String) :=
  d.service.map (fun s => s.routing_keys.map (fun k => k.ident))

/-- One hop of a well-formed router chain: the router's record, its stored DID
Document, the document's first service, and that service's first recipient
key. -/
structure Hop where
  router : Conn23Record
  tdid : String
  doc : DIDDoc
  svc : Service
  svcRest : List Service
  rk0 : PublicKey
  rkRest : List PublicKey
deriving DecidableEq, Repr

/-- Equality of `Except` results is decidable componentwise. -/
instance {e a : Type} [DecidableEq e] [DecidableEq a] : DecidableEq (Except e a) := fun x y =>
  match x, y with
  | .ok x, .ok y =>
    if h : x = y then isTrue (by rw [h])
    else isFalse (by intro hc; injection hc; contradiction)
  | .error x, .error y =>
    if h : x = y then isTrue (by rw [h])
    else isFalse (by intro hc; injection hc; contradiction)
  | .ok _, .error _ => isFalse (by intro hc; cases hc)
  | .error _, .ok _ => isFalse (by intro hc; cases hc)

/-- The endpoint override after walking a chain: the first-service endpoint of
the last-walked router, or the incoming endpoints when there is no hop. -/
def lastEndpoint (hops : List Hop) (eps : List String) : List String :=
  match hops.getLast? with
  | none => eps
  | some h => [h.svc.endpoint]

/-- A well-formed router chain starting at the given inbound connection id:
each hop's record is retrievable and COMPLETED, its DID Document is stored and
has a first service with an endpoint and recipient keys, and the chain follows
`inbound_connection_id` links until none. -/
def chainOk (recs : RecordStore) (store : Storage) : Option Nat → List Hop → Bool
  | none, [] => true
  | some rid, h :: hs =>
    decide (retrieve_by_id recs rid = some h.router)
    && decide (h.router.state = CState.completed)
    && decide (h.router.their_did = some h.tdid)
    && decide (fetch_did_document store h.tdid = Except.ok h.doc)
    && decide (h.doc.service = h.svc :: h.svcRest)
    && decide (h.svc.endpoint ≠ "")
    && decide (h.svc.recip_keys = h.rk0 :: h.rkRest)
    && chainOk recs store h.router.inbound_connection_id hs
  | none, _ :: _ => false
  | some _, [] => false

/-- Source `Conn23Manager.create_invitation`. -/
def create_invitation (ctx : Ctx) (st : AgentState)
    (my_label my_endpoint : Option String) (auto_accept : Option Bool)
    (pub multi_use : Bool) (alia : Option String) (include_handshake : Bool) :
    AgentState × Except Err (Option Conn23Record × OOBInvitation) :=
  let label := match my_label with
    | some l => some l
    | none => ctx.settings.default_label
  if pub then
    if !ctx.settings.public_invites then (st, .error .publicInvitesDisabled)
    else
      match st.wallet.publicDid with
      | none => (st, .error .noPublicDid)
      | some pd =>
        if multi_use then (st, .error .multiUseWithPublic)
        else
          (st, .ok (none,
            { label := label,
              handshake_protocols :=
                if include_handshake then ["https://didcomm.org/out-of-band/1.0/invitation"]
                else [],
              service := [.did ("did:sov:" ++ pd.did)] }))
  else
    let invitation_mode := if multi_use then InvMode.multi else InvMode.once
    let endpoint := match my_endpoint with
      | some e => some e
      | none => ctx.settings.default_endpoint
    let accept :=
      if auto_accept.getD ctx.settings.debug_auto_accept_requests then CAccept.auto
      else CAccept.manual
    match st.wallet.create_signing_key with
    | .error e => (st, .error e)
    | .ok (connection_key, wallet) =>
      let inv : OOBInvitation :=
        { label := label,
          handshake_protocols :=
            if include_handshake then ["https://didcomm.org/didexchange/1.0/invitation"]
            else [],
          service := [.block
            { ident := "#inline", stype := "did-communication",
              recipient_keys := [naked_to_did_key connection_key],
              service_endpoint := endpoint }] }
      let conn : Conn23Record :=
        { connection_id := freshId st.recs,
          invitation_key := some connection_key,
          their_role := some CRole.requester,
          state := CState.invitation,
          accept := accept,
          invitation_mode := invitation_mode,
          conn_alias := alia }
      let st1 : AgentState :=
        { st with wallet := wallet,
                  recs := saveRecord st.recs conn,
                  invAtt := st.invAtt ++ [(conn.connection_id, inv)] }
      (st1, .ok (some conn, inv))

/-- Resolution of our DID at the head of `create_request`, `create_response`
and `establish_inbound`: use `connection.my_did` if present, else create a
fresh local DID and set it on the record. -/
def resolveMyDid (w : Wallet) (c : Conn23Record) :
    Except Err (DIDInfo × Wallet × Conn23Record) :=
  match c.my_did with
  | some d =>
    match w.get_local_did d with
    | .error e => .error e
    | .ok info => .ok (info, w, c)
  | none =>
    match w.create_local_did with
    | .error e => .error e
    | .ok (info, w1) => .ok (info, w1, { c with my_did := some info.did })

/-- The endpoint list the manager builds when no explicit endpoint is given:
the default endpoint when configured, then the additional endpoints. -/
def defaultEndpoints (settings : Settings) (my_endpoint : Option String) : List String :=
  match my_endpoint with
  | some e => [e]
  | none =>
    (match settings.default_endpoint with
     | some d => [d]
     | none => []) ++ settings.additional_endpoints

/-- Source `Conn23Manager.create_request`: resolve our DID, build and sign our
DID Document, take `pthid` from the document's first service (a bare list
index in the source), persist `request_id` and advance the record to
REQUEST.  `reqId` stands for the freshly generated message id. -/
def create_request (ctx : Ctx) (st : AgentState) (connection : Conn23Record)
    (my_label my_endpoint : Option String) (reqId : String) (fuel : Nat) :
    AgentState × Except Err (Conn23Request × Conn23Record) :=
  match resolveMyDid st.wallet connection with
  | .error e => (st, .error e)
  | .ok (my_info, wallet, connection) =>
    let st := { st with wallet := wallet }
    let my_endpoints := defaultEndpoints ctx.settings my_endpoint
    match create_did_document fuel st.recs st.store my_info
        connection.inbound_connection_id my_endpoints with
    | .error e => (st, .error e)
    | .ok did_doc =>
      match did_doc.service with
      | [] => (st, .error .indexError)
      | s0 :: _ =>
        let pthid := s0.ident
        let attach := signAttach did_doc my_info.verkey
        let label := match my_label with
          | some l => some l
          | none => ctx.settings.default_label
        let request : Conn23Request :=
          { msgId := reqId, label := label,
            did := connection.my_did.getD my_info.did,
            did_doc_attach := some attach,
            thid := some reqId, pthid := some pthid }
        let connection := { connection with request_id := some reqId,
                                            state := CState.request }
        ({ st with recs := saveRecord st.recs connection }, .ok (request, connection))

/-- Source `Conn23Manager.create_response`: require state REQUEST, retrieve
the stored request, resolve our DID, build our DID Document and sign it with
the connection's invitation key, copy thread context, advance to RESPONSE. -/
def create_response (ctx : Ctx) (st : AgentState) (connection : Conn23Record)
    (my_endpoint : Option String) (fuel : Nat) :
    AgentState × Except Err (Conn23Response × Conn23Record) :=
  if connection.state = CState.request then
    match retrieve_request st connection with
    | none => (st, .error .storageNotFound)
    | some request =>
      match resolveMyDid st.wallet connection with
      | .error e => (st, .error e)
      | .ok (my_info, wallet, connection) =>
        let st := { st with wallet := wallet }
        let my_endpoints := defaultEndpoints ctx.settings my_endpoint
        match create_did_document fuel st.recs st.store my_info
            connection.inbound_connection_id my_endpoints with
        | .error e => (st, .error e)
        | .ok did_doc =>
          match connection.invitation_key with
          | none => (st, .error .walletError)
          | some ikey =>
            let attach := signAttach did_doc ikey
            let response : Conn23Response :=
              { thread := some request.threadId, did := my_info.did,
                did_doc_attach := some attach }
            let connection := { connection with state := CState.response }
            ({ st with recs := saveRecord st.recs connection },
             .ok (response, connection))
  else (st, .error (.wrongState connection.state))

/-- The child record `receive_request` clones from a MULTI-use invitation
record: fresh connection id, the freshly created local DID, state REQUEST,
inheriting `accept`, `their_role` and `invitation_key` from the parent. -/
def multiChild (recsBefore : RecordStore) (parent : Conn23Record) (d : DIDInfo) :
    Conn23Record :=
  { connection_id := freshId recsBefore,
    invitation_key := parent.invitation_key,
    my_did := some d.did,
    state := CState.request,
    accept := parent.accept,
    their_role := parent.their_role }

/-- The tail of `receive_request` after auto-acceptance: attach the request
alongside the record and, when `accept = AUTO`, create the response, dispatch
it when a responder is available, and advance to RESPONSE. -/
def receive_request_finish (ctx : Ctx) (st : AgentState) (connection : Conn23Record)
    (request : Conn23Request) (fuel : Nat) :
    AgentState × Except Err (Conn23Record × List SentMsg) :=
  let st := { st with reqAtt := st.reqAtt ++ [(connection.connection_id, request)] }
  if connection.accept = CAccept.auto then
    match create_response ctx st connection none fuel with
    | (st1, .error e) => (st1, .error e)
    | (st1, .ok (response, connection)) =>
      if ctx.hasResponder then
        let connection := { connection with state := CState.response }
        ({ st1 with recs := saveRecord st1.recs connection },
         .ok (connection, [SentMsg.response response]))
      else (st1, .ok (connection, []))
  else (st, .ok (connection, []))

/-- The part of `receive_request` from the attachment checks onward (source
lines after the key determination): verify the signed DID Document, check
`request.did` against the document's DID, persist the document, then update
the located record or create a fresh one for a public-DID request. -/
def receive_request_tail (ctx : Ctx) (st : AgentState)
    (connection : Option Conn23Record) (connection_key : Option String)
    (request : Conn23Request) (fuel : Nat) :
    AgentState × Except Err (Conn23Record × List SentMsg) :=
  match request.did_doc_attach with
  | none => (st, .error .missingAttachData)
  | some attach =>
    if !attach.hasData then (st, .error .missingAttachData)
    else if !attach.sigValid then (st, .error .sigVerifyFailed)
    else if request.did ≠ attach.doc.did then (st, .error .didMismatchRequest)
    else
      match store_did_document st.store attach.doc with
      | .error e => (st, .error e)
      | .ok store =>
        let st := { st with store := store }
        match connection with
        | some c =>
          let c := { c with their_label := request.label,
                            their_did := some request.did,
                            state := CState.request }
          let st := { st with recs := saveRecord st.recs c }
          receive_request_finish ctx st c request fuel
        | none =>
          if !ctx.settings.public_invites then (st, .error .publicInvitesDisabled)
          else
            match st.wallet.create_local_did with
            | .error e => (st, .error e)
            | .ok (my_info, wallet) =>
              let st := { st with wallet := wallet }
              let c : Conn23Record :=
                { connection_id := freshId st.recs,
                  invitation_key := connection_key,
                  my_did := some my_info.did,
                  their_did := some request.did,
                  their_label := request.label,
                  their_role := some CRole.requester,
                  state := CState.request,
                  accept :=
                    if ctx.settings.debug_auto_accept_requests then CAccept.auto
                    else CAccept.manual }
              let st := { st with recs := saveRecord st.recs c }
              receive_request_finish ctx st c request fuel

/-- Source `Conn23Manager.receive_request`: determine the connection key
(public recipient DID or invitation key), retrieve the invitation record,
clone a child record when the invitation is MULTI-use, then continue with the
attachment verification tail. -/
def receive_request (ctx : Ctx) (st : AgentState) (request : Conn23Request)
    (receipt : MessageReceipt) (fuel : Nat) :
    AgentState × Except Err (Conn23Record × List SentMsg) :=
  if receipt.recipient_did_public then
    match receipt.recipient_did with
    | none => (st, .error .walletNotFound)
    | some rdid =>
      match st.wallet.get_local_did rdid with
      | .error e => (st, .error e)
      | .ok my_info =>
        receive_request_tail ctx st none (some my_info.verkey) request fuel
  else
    match receipt.recipient_verkey with
    | none => (st, .error .invitationNotFound)
    | some rvk =>
      match retrieve_by_invitation_key st.recs rvk CRole.responder with
      | none => (st, .error .invitationNotFound)
      | some conn0 =>
        match retrieve_invitation st conn0 with
        | none => (st, .error .storageNotFound)
        | some _invitation =>
          let connection_key := conn0.invitation_key
          if conn0.invitation_mode = InvMode.multi then
            match st.wallet.create_local_did with
            | .error e => (st, .error e)
            | .ok (my_info, wallet) =>
              let child := multiChild st.recs conn0 my_info
              let st := { st with wallet := wallet,
                                  recs := saveRecord st.recs child }
              receive_request_tail ctx st (some child) connection_key request fuel
          else
            receive_request_tail ctx st (some conn0) connection_key request fuel

/-- The connection lookup at the head of `accept_response`: by thread id when
the response is threaded, else by the pairwise DIDs on the receipt with our
role REQUESTER. -/
def locate_response_connection (recs : RecordStore) (response : Conn23Response)
    (receipt : MessageReceipt) : Option Conn23Record :=
  let byThread := match response.thread with
    | some tid => retrieve_by_request_id recs tid
    | none => none
  match byThread with
  | some c => some c
  | none =>
    match receipt.sender_did with
    | some sdid => retrieve_by_did recs sdid receipt.recipient_did (some CRole.requester)
    | none => none

/-- Source `Conn23Manager.accept_response`: locate the connection, require
state REQUEST, verify the attached signed DID Document, check `response.did`
against the document's DID, persist the document, set `their_did`, advance to
RESPONSE, then create and dispatch the Complete message (after which the
source re-saves the record with state RESPONSE). -/
def accept_response (ctx : Ctx) (st : AgentState) (response : Conn23Response)
    (receipt : MessageReceipt) :
    AgentState × Except Err (Conn23Record × List SentMsg) :=
  match locate_response_connection st.recs response receipt with
  | none => (st, .error .unmatchedResponse)
  | some connection =>
    if connection.state = CState.request then
      match response.did_doc_attach with
      | none => (st, .error .noDidDocAttached)
      | some attach =>
        if !attach.signedPresent then (st, .error .attachNotSigned)
        else if !attach.sigValid then (st, .error .sigVerifyFailed)
        else if response.did ≠ attach.doc.did then (st, .error .didMismatchResponse)
        else
          match store_did_document st.store attach.doc with
          | .error e => (st, .error e)
          | .ok store =>
            let st := { st with store := store }
            let connection := { connection with their_did := some response.did,
                                                state := CState.response }
            let st := { st with recs := saveRecord st.recs connection }
            if ctx.hasResponder then
              let connection := { connection with state := CState.response }
              ({ st with recs := saveRecord st.recs connection },
               .ok (connection, [SentMsg.complete response.thread]))
            else (st, .ok (connection, []))
    else (st, .error (.wrongState connection.state))

/-- Source `Conn23Manager.accept_complete`: locate the connection solely by
the Complete message's thread id, then set state COMPLETED and save. -/
def accept_complete (st : AgentState) (complete : Conn23Complete)
    (_receipt : MessageReceipt) : AgentState × Except Err Conn23Record :=
  match complete.thread.bind (fun tid => retrieve_by_request_id st.recs tid) with
  | none => (st, .error .completeNotAccepted)
  | some connection =>
    let connection := { connection with state := CState.completed }
    ({ st with recs := saveRecord st.recs connection }, .ok connection)

/-- A cached inbound-resolution entry: connection id plus the receipt
fields to repopulate. -/
structure CacheVal where
  id : Nat
  sender_did : Option String
  recipient_did : Option String
  recipient_did_public : Bool
deriving DecidableEq, Repr

/-- Modelled from the spec: the bounded cache as an association list of
(key, value, ttl-seconds) entries. -/
abbrev Cache := List (String × CacheVal × Nat)

/-- Modelled from the spec: the entry's current result for a key. -/
def Cache.get (c : Cache) (k : String) : Option CacheVal :=
  (c.find? (fun e => e.1 == k)).map (fun e => e.2.1)

/-- Modelled from the spec: `entry.set_result(value, ttl)` upserts the key. -/
def Cache.setResult (c : Cache) (k : String) (v : CacheVal) (ttl : Nat) : Cache :=
  if c.any (fun e => e.1 == k) then
    c.map (fun e => if e.1 == k then (k, v, ttl) else e)
  else
    c ++ [(k, v, ttl)]

/-- The cache key `find_inbound_connection` computes, exactly when both the
sender and recipient verkeys are present on the receipt. -/
def cacheKey (receipt : MessageReceipt) : Option String :=
  match receipt.sender_verkey, receipt.recipient_verkey with
  | some s, some r => some ("connection_by_verkey::" ++ s ++ "::" ++ r)
  | _, _ => none

/-- Source `Conn23Manager.find_inbound_connection`.  The resolver
(`resolve_inbound_connection`, which mutates the receipt) is passed as a
function; the returned `Nat` counts how many times it was invoked.  On a cache
hit the receipt is repopulated from the entry and the record loaded by id; on
a miss the resolver runs once and a found connection is cached with TTL 3600;
without a usable key or cache the call falls through to the resolver. -/
def find_inbound_connection (recs : RecordStore) (cache : Option Cache)
    (resolve : MessageReceipt → MessageReceipt × Option Conn23Record)
    (receipt : MessageReceipt) :
    Option Cache × MessageReceipt × Nat × Except Err (Option Conn23Record) :=
  match cacheKey receipt with
  | some key =>
    match cache with
    | some c =>
      match c.get key with
      | some cached =>
        let receipt := { receipt with sender_did := cached.sender_did,
                                      recipient_did_public := cached.recipient_did_public,
                                      recipient_did := cached.recipient_did }
        match retrieve_by_id recs cached.id with
        | none => (some c, receipt, 0, .error .storageNotFound)
        | some conn => (some c, receipt, 0, .ok (some conn))
      | none =>
        let rr := resolve receipt
        let c1 := match rr.2 with
          | some conn =>
            c.setResult key
              { id := conn.connection_id, sender_did := rr.1.sender_did,
                recipient_did := rr.1.recipient_did,
                recipient_did_public := rr.1.recipient_did_public } 3600
          | none => c
        (some c1, rr.1, 1, .ok rr.2)
    | none =>
      let rr := resolve receipt
      (none, rr.1, 1, .ok rr.2)
  | none =>
    let rr := resolve receipt
    (cache, rr.1, 1, .ok rr.2)

/-- Requester-side record in state REQUEST awaiting the response (thread id
`t1`). -/
def c1rec : Conn23Record :=
  { connection_id := 1, my_did := some "did:me", their_role := some CRole.responder,
    state := CState.request, request_id := some "t1", invitation_key := some "IK" }

/-- The peer's DID Document carried by the response attachment. -/
def c1doc : DIDDoc :=
  { did := "did:peer",
    pubkey := [{ did := "did:peer", ident := "1", value := "PVK",
                 controller := "did:peer", authn := true }] }

/-- A well-formed response matching `c1rec` by thread id, with a verifying
signed attachment whose document DID matches. -/
def c1resp : Conn23Response :=
  { thread := some "t1", did := "did:peer",
    did_doc_attach := some { sigValid := true, doc := c1doc } }

/-- Agent state holding just the requester record. -/
def c1st : AgentState := { recs := [c1rec] }

/-- Context with a responder available, so the Complete message is sent. -/
def c1ctx : Ctx := { hasResponder := true }

/-- DID information of the agent building the routed document. -/
def c2di : DIDInfo := { did := "did:alice", verkey := "AVK" }

/-- First router's recipient key. -/
def c2k1 : PublicKey :=
  { did := "did:r1", ident := "r1k", value := "K_R1", controller := "did:r1", authn := true }

/-- Second router's recipient key. -/
def c2k2 : PublicKey :=
  { did := "did:r2", ident := "r2k", value := "K_R2", controller := "did:r2", authn := true }

/-- First router's service. -/
def c2svc1 : Service :=
  { did := "did:r1", ident := "s1", stype := "did-communication",
    recip_keys := [c2k1], routing_keys := [], endpoint := "http://r1" }

/-- Second router's service. -/
def c2svc2 : Service :=
  { did := "did:r2", ident := "s2", stype := "did-communication",
    recip_keys := [c2k2], routing_keys := [], endpoint := "http://r2" }

/-- First router's stored DID Document. -/
def c2rdoc1 : DIDDoc := { did := "did:r1", service := [c2svc1] }

/-- Second router's stored DID Document. -/
def c2rdoc2 : DIDDoc := { did := "did:r2", service := [c2svc2] }

/-- First router record, COMPLETED, chaining to the second router. -/
def c2router1 : Conn23Record :=
  { connection_id := 10, state := CState.completed, their_did := some "did:r1",
    inbound_connection_id := some 11 }

/-- Second router record, COMPLETED, end of the chain. -/
def c2router2 : Conn23Record :=
  { connection_id := 11, state := CState.completed, their_did := some "did:r2" }

/-- Record store holding the two-router chain. -/
def c2recs : RecordStore := [c2router1, c2router2]

/-- Storage holding both routers' DID Documents. -/
def c2store : Storage :=
  [.didDocRec "did:r1" c2rdoc1, .didDocRec "did:r2" c2rdoc2]

/-- The single hop of a one-router chain starting at connection 11. -/
def c2hop : Hop :=
  { router := c2router2, tdid := "did:r2", doc := c2rdoc2, svc := c2svc2,
    svcRest := [], rk0 := c2k2, rkRest := [] }

/-- MULTI-use invitation record (the parent). -/
def c3parent : Conn23Record :=
  { connection_id := 5, invitation_key := some "IK5",
    their_role := some CRole.requester, state := CState.invitation,
    accept := CAccept.manual, invitation_mode := InvMode.multi }

/-- The invitation attached alongside the parent record. -/
def c3inv : OOBInvitation := { label := some "alice" }

/-- The fresh local DID the wallet mints for the child record. -/
def c3d : DIDInfo := { did := "did:new", verkey := "NVK" }

/-- The wallet state after minting `c3d`. -/
def c3wallet' : Wallet := { locals := [c3d] }

/-- Agent state holding the MULTI-use parent, its invitation, and one DID in
the wallet supply. -/
def c3st : AgentState :=
  { recs := [c3parent], wallet := { supply := [c3d] }, invAtt := [(5, c3inv)] }

/-- An incoming request without attachment (C3 holds for every request). -/
def c3req : Conn23Request := { msgId := "m1", did := "did:bob" }

/-- Receipt addressed to the invitation key of the parent. -/
def c3receipt : MessageReceipt := { recipient_verkey := some "IK5" }

/-- Record whose state is INVITATION but whose request id matches thread
`t4`. -/
def c4rec : Conn23Record :=
  { connection_id := 4, state := CState.invitation, request_id := some "t4" }

/-- Agent state holding `c4rec`. -/
def c4st : AgentState := { recs := [c4rec] }

/-- Response threaded to `t4` (locating `c4rec`, which is in the wrong
state). -/
def c4resp : Conn23Response := { thread := some "t4", did := "did:x" }

/-- Unthreaded response against an empty receipt: neither lookup succeeds. -/
def c4respNone : Conn23Response := { thread := none, did := "did:x" }

/-- A document with two public keys, one controlled by the document's DID and
one by a foreign controller. -/
def c5doc : DIDDoc :=
  { did := "did:x",
    pubkey := [{ did := "did:x", ident := "1", value := "VK1",
                 controller := "did:x", authn := true },
               { did := "did:x", ident := "2", value := "VK2",
                 controller := "did:other", authn := false }] }

/-- The storage state after storing `c5doc` into empty storage. -/
def c5t : Storage := [.didDocRec "did:x" c5doc, .didKeyRec "did:x" "VK1"]

/-- The connection record the inbound cache resolves to. -/
def c6rec : Conn23Record := { connection_id := 2 }

/-- Record store holding `c6rec`. -/
def c6recs : RecordStore := [c6rec]

/-- A populated cache entry for the verkey pair (SV, RV). -/
def c6val : CacheVal :=
  { id := 2, sender_did := some "did:s", recipient_did := some "did:r",
    recipient_did_public := false }

/-- Cache holding the populated entry. -/
def c6cacheHit : Cache := [("connection_by_verkey::SV::RV", c6val, 3600)]

/-- Receipt carrying both verkeys. -/
def c6receipt : MessageReceipt :=
  { sender_verkey := some "SV", recipient_verkey := some "RV" }

/-- A concrete resolver standing for `resolve_inbound_connection`. -/
def c6resolve : MessageReceipt → MessageReceipt × Option Conn23Record :=
  fun r => ({ r with sender_did := some "did:s2" }, some c6rec)

/-- Context with public invitations disabled. -/
def c7ctxOff : Ctx := {}

/-- Context with public invitations enabled. -/
def c7ctxOn : Ctx := { settings := { public_invites := true } }

/-- The wallet's public DID. -/
def c7pd : DIDInfo := { did := "PUB", verkey := "PVK7", isPublic := true }

/-- Agent state whose wallet has no public DID. -/
def c7stNoPub : AgentState := {}

/-- Agent state whose wallet has the public DID `c7pd`. -/
def c7stPub : AgentState := { wallet := { publicDid := some c7pd } }

/-- Record in state RESPONSE whose request id matches thread `tt`. -/
def c8rec : Conn23Record :=
  { connection_id := 3, state := CState.response, request_id := some "tt" }

/-- Agent state holding `c8rec`. -/
def c8st : AgentState := { recs := [c8rec] }

/-- A request whose signed attachment fails verification. -/
def c9req : Conn23Request :=
  { msgId := "m2", did := "did:bob",
    did_doc_attach := some { sigValid := false, doc := { did := "did:bob" } } }

/-- Local DID already present on the connection for the C10 scenario. -/
def c10info : DIDInfo := { did := "did:me10", verkey := "VK10" }

/-- Agent state whose wallet knows `c10info`. -/
def c10st : AgentState := { wallet := { locals := [c10info] } }

/-- Connection with a resolvable DID, no inbound routing chain. -/
def c10conn : Conn23Record :=
  { connection_id := 7, my_did := some "did:me10", state := CState.invitation }

theorem exists_doc_of_isDocFor {did : String} {r : StoreRec}
    (h : r.isDocFor did = true) : ∃ doc, r = StoreRec.didDocRec did doc := by
  cases r with
  | didDocRec d doc =>
    simp only [StoreRec.isDocFor, beq_iff_eq] at h
    exact ⟨doc, by rw [h]⟩
  | didKeyRec d k => simp [StoreRec.isDocFor] at h

theorem docRecsFor_append (did : String) (s t : Storage) :
    docRecsFor did (s ++ t) = docRecsFor did s ++ docRecsFor did t := by
  unfold docRecsFor
  exact List.filter_append s t

theorem docRecsFor_remove_keys (did did' : String) (s : Storage) :
    docRecsFor did (remove_keys_for_did s did') = docRecsFor did s := by
  unfold docRecsFor remove_keys_for_did
  rw [List.filter_filter]
  apply List.filter_congr
  intro r _
  cases r <;> simp [StoreRec.isDocFor, StoreRec.isKeyFor]

theorem addKeysLoop_eq (doc : DIDDoc) (s : Storage) :
    addKeysLoop doc s = s ++ keyEntries doc := by
  unfold addKeysLoop keyEntries
  generalize doc.pubkey = l
  induction l generalizing s with
  | nil => simp
  | cons k t ih =>
    simp only [List.foldl_cons]
    by_cases h : (k.controller == doc.did) = true
    · rw [if_pos h, ih, List.filter_cons, if_pos h, List.map_cons, add_key_for_did,
        List.append_assoc, List.singleton_append]
    · rw [if_neg h, ih, List.filter_cons, if_neg h]

theorem docRecsFor_keyEntries (did : String) (doc : DIDDoc) :
    docRecsFor did (keyEntries doc) = [] := by
  unfold docRecsFor keyEntries
  rw [List.filter_eq_nil_iff]
  intro a ha
  rcases List.mem_map.mp ha with ⟨k, _, rfl⟩
  simp [StoreRec.isDocFor]

theorem keyRecsFor_keyEntries (doc : DIDDoc) :
    keyRecsFor doc.did (keyEntries doc) = keyEntries doc := by
  unfold keyRecsFor
  rw [List.filter_eq_self]
  intro a ha
  rcases List.mem_map.mp ha with ⟨k, _, rfl⟩
  simp [StoreRec.isKeyFor]

theorem keyRecsFor_append (did : String) (s t : Storage) :
    keyRecsFor did (s ++ t) = keyRecsFor did s ++ keyRecsFor did t := by
  unfold keyRecsFor
  exact List.filter_append s t

theorem keyRecsFor_remove_keys (did : String) (s : Storage) :
    keyRecsFor did (remove_keys_for_did s did) = [] := by
  unfold keyRecsFor remove_keys_for_did
  rw [List.filter_filter, List.filter_eq_nil_iff]
  intro a _
  cases h : a.isKeyFor did <;> simp [h]

theorem remove_keys_append (did : String) (s t : Storage) :
    remove_keys_for_did (s ++ t) did = remove_keys_for_did s did ++ remove_keys_for_did t did := by
  unfold remove_keys_for_did
  exact List.filter_append s t

theorem remove_keys_keyEntries (doc : DIDDoc) :
    remove_keys_for_did (keyEntries doc) doc.did = [] := by
  unfold remove_keys_for_did keyEntries
  rw [List.filter_eq_nil_iff]
  intro a ha
  rcases List.mem_map.mp ha with ⟨k, _, rfl⟩
  simp [StoreRec.isKeyFor]

theorem remove_keys_idem (did : String) (s : Storage) :
    remove_keys_for_did (remove_keys_for_did s did) did = remove_keys_for_did s did := by
  unfold remove_keys_for_did
  rw [List.filter_eq_self]
  intro a ha
  exact (List.mem_filter.mp ha).2

theorem filter_map_comm_of_pred_preserved {α : Type} {p : α → Bool} {f : α → α}
    (hf : ∀ a, p (f a) = p a) (l : List α) :
    (l.map f).filter p = (l.filter p).map f := by
  induction l with
  | nil => rfl
  | cons a t ih =>
    by_cases h : p a = true
    · simp only [List.map_cons, List.filter_cons, hf, h, if_pos, ih]
    · simp only [List.map_cons, List.filter_cons, hf, h]
      simp only [Bool.false_eq_true] at h
      simp [h, ih]

theorem map_docUpdate_eq_self {did : String} {doc : DIDDoc} {l : Storage}
    (h : ∀ r ∈ l, r.isDocFor did = true → r = StoreRec.didDocRec did doc) :
    l.map (fun r => if r.isDocFor did then StoreRec.didDocRec did doc else r) = l := by
  induction l with
  | nil => rfl
  | cons a t ih =>
    simp only [List.map_cons]
    have ha : (if a.isDocFor did = true then StoreRec.didDocRec did doc else a) = a := by
      by_cases hp : a.isDocFor did = true
      · rw [if_pos hp, h a (List.mem_cons_self a t) hp]
      · rw [if_neg hp]
    rw [ha, ih (fun r hr hp => h r (List.mem_cons_of_mem a hr) hp)]

theorem store_ok_shape {s t : Storage} {doc : DIDDoc}
    (h : store_did_document s doc = Except.ok t) :
    docRecsFor doc.did t = [StoreRec.didDocRec doc.did doc] ∧
    keyRecsFor doc.did t = keyEntries doc ∧
    remove_keys_for_did t doc.did ++ keyEntries doc = t := by
  unfold store_did_document at h
  by_cases hd : (doc.did == "") = true
  · rw [if_pos hd] at h
    exact absurd h (by simp)
  · rw [if_neg hd] at h
    cases hm : docRecsFor doc.did s with
    | nil =>
      rw [hm] at h
      injection h with h
      subst h
      rw [addKeysLoop_eq]
      refine ⟨?_, ?_, ?_⟩
      · rw [docRecsFor_append, docRecsFor_remove_keys, docRecsFor_append, hm,
          docRecsFor_keyEntries, List.nil_append, List.append_nil]
        simp [docRecsFor, StoreRec.isDocFor]
      · rw [keyRecsFor_append, keyRecsFor_remove_keys, keyRecsFor_keyEntries,
          List.nil_append]
      · rw [remove_keys_append, remove_keys_idem, remove_keys_keyEntries,
          List.append_nil]
    | cons r rest =>
      cases rest with
      | nil =>
        rw [hm] at h
        injection h with h
        subst h
        have hrp : r.isDocFor doc.did = true := by
          have hr : r ∈ docRecsFor doc.did s := by
            rw [hm]; exact List.mem_cons_self r []
          unfold docRecsFor at hr
          exact (List.mem_filter.mp hr).2
        have hpres : ∀ a : StoreRec,
            StoreRec.isDocFor doc.did
              (if a.isDocFor doc.did then StoreRec.didDocRec doc.did doc else a)
              = a.isDocFor doc.did := by
          intro a
          by_cases hp : a.isDocFor doc.did = true
          · rw [if_pos hp, hp]
            simp [StoreRec.isDocFor]
          · rw [if_neg hp]
        have hmap : docRecsFor doc.did
            (s.map (fun a => if a.isDocFor doc.did then StoreRec.didDocRec doc.did doc else a))
            = (docRecsFor doc.did s).map
                (fun a => if a.isDocFor doc.did then StoreRec.didDocRec doc.did doc else a) := by
          unfold docRecsFor
          exact filter_map_comm_of_pred_preserved hpres s
        rw [addKeysLoop_eq]
        refine ⟨?_, ?_, ?_⟩
        · rw [docRecsFor_append, docRecsFor_remove_keys, hmap, hm,
            docRecsFor_keyEntries, List.append_nil, List.map_cons, List.map_nil,
            if_pos hrp]
        · rw [keyRecsFor_append, keyRecsFor_remove_keys, keyRecsFor_keyEntries,
            List.nil_append]
        · rw [remove_keys_append, remove_keys_idem, remove_keys_keyEntries,
            List.append_nil]
      | cons r2 rest2 =>
        rw [hm] at h
        exact absurd h (by simp)

theorem store_ok_again {s t : Storage} {doc : DIDDoc}
    (h : store_did_document s doc = Except.ok t) :
    store_did_document t doc = Except.ok t := by
  obtain ⟨h1, h2, h3⟩ := store_ok_shape h
  have hd : ¬((doc.did == "") = true) := by
    intro hdd
    unfold store_did_document at h
    rw [if_pos hdd] at h
    exact absurd h (by simp)
  have hmapid : t.map
      (fun r => if r.isDocFor doc.did then StoreRec.didDocRec doc.did doc else r) = t := by
    apply map_docUpdate_eq_self
    intro r hr hp
    have hmem : r ∈ docRecsFor doc.did t := by
      unfold docRecsFor
      exact List.mem_filter.mpr ⟨hr, hp⟩
    rw [h1] at hmem
    simpa using hmem
  unfold store_did_document
  rw [if_neg hd, h1, hmapid]
  show Except.ok (addKeysLoop doc (remove_keys_for_did t doc.did)) = Except.ok t
  rw [addKeysLoop_eq, h3]

/-- C5: `store_did_document` is idempotent: a second identical store leaves
the storage unchanged, and after any successful store there is exactly one
`did_doc` record for the document's DID, whose `did_key` entries are exactly
one per public key of the document controlled by that DID (all previously
stored key entries for the DID having been deleted). -/
theorem c5_store_did_document_idempotent (s t : Storage) (doc : DIDDoc)
    (h : store_did_document s doc = Except.ok t) :
    store_did_document t doc = Except.ok t ∧
    docRecsFor doc.did t = [StoreRec.didDocRec doc.did doc] ∧
    keyRecsFor doc.did t = keyEntries doc :=
  ⟨store_ok_again h, (store_ok_shape h).1, (store_ok_shape h).2.1⟩

theorem c5_witness :
    store_did_document c5t c5doc = Except.ok c5t ∧
    docRecsFor c5doc.did c5t = [StoreRec.didDocRec c5doc.did c5doc] ∧
    keyRecsFor c5doc.did c5t = keyEntries c5doc :=
  c5_store_did_document_idempotent [] c5t c5doc (by rfl)

/-- C8: `accept_complete` locates the connection solely by the Complete
message's thread id; when no record matches it fails with problem-report code
COMPLETE_NOT_ACCEPTED and the state is unchanged; when one matches, the
record is set to COMPLETED and saved unconditionally, whatever its prior
state. -/
theorem c8_accept_complete_spec (st : AgentState) (complete : Conn23Complete)
    (receipt : MessageReceipt) :
    (complete.thread.bind (fun tid => retrieve_by_request_id st.recs tid) = none →
      accept_complete st complete receipt = (st, Except.error Err.completeNotAccepted) ∧
      Err.completeNotAccepted.problemCode = some ProblemCode.complete_not_accepted) ∧
    (∀ c, complete.thread.bind (fun tid => retrieve_by_request_id st.recs tid) = some c →
      accept_complete st complete receipt =
        ({ st with recs := saveRecord st.recs { c with state := CState.completed } },
         Except.ok { c with state := CState.completed })) := by
  constructor
  · intro h
    refine ⟨?_, rfl⟩
    unfold accept_complete
    rw [h]
  · intro c h
    unfold accept_complete
    rw [h]

theorem c8_witness :
    accept_complete c8st { thread := none } {} = (c8st, Except.error Err.completeNotAccepted) ∧
    accept_complete c8st { thread := some "tt" } {} =
      ({ c8st with recs := saveRecord c8st.recs { c8rec with state := CState.completed } },
       Except.ok { c8rec with state := CState.completed }) := by
  constructor
  · exact ((c8_accept_complete_spec c8st { thread := none } {}).1 (by rfl)).1
  · exact (c8_accept_complete_spec c8st { thread := some "tt" } {}).2 c8rec (by rfl)

/-- C4: `accept_response` locates the connection first by thread id and,
failing that, by (their_did = sender DID, my_did = recipient DID, my_role =
REQUESTER); when neither lookup succeeds it fails with problem-report code
RESPONSE_NOT_ACCEPTED; when the located record is not in state REQUEST it
fails WrongState; on both error paths the state is returned unchanged (no
save). -/
theorem c4_accept_response_lookup_and_errors (ctx : Ctx) (st : AgentState)
    (response : Conn23Response) (receipt : MessageReceipt) :
    (∀ tid c, response.thread = some tid → retrieve_by_request_id st.recs tid = some c →
      locate_response_connection st.recs response receipt = some c) ∧
    (response.thread.bind (fun tid => retrieve_by_request_id st.recs tid) = none →
      locate_response_connection st.recs response receipt =
        receipt.sender_did.bind
          (fun sdid => retrieve_by_did st.recs sdid receipt.recipient_did
            (some CRole.requester))) ∧
    (locate_response_connection st.recs response receipt = none →
      accept_response ctx st response receipt = (st, Except.error Err.unmatchedResponse) ∧
      Err.unmatchedResponse.problemCode = some ProblemCode.response_not_accepted) ∧
    (∀ c, locate_response_connection st.recs response receipt = some c →
      c.state ≠ CState.request →
      accept_response ctx st response receipt = (st, Except.error (Err.wrongState c.state))) := by
  refine ⟨?_, ?_, ?_, ?_⟩
  · intro tid c ht hr
    simp only [locate_response_connection, ht, hr]
  · intro h
    unfold locate_response_connection
    cases ht : response.thread with
    | none =>
      cases receipt.sender_did <;> simp
    | some tid =>
      rw [ht] at h
      simp only [Option.some_bind] at h
      simp only [h]
      cases receipt.sender_did <;> simp
  · intro h
    refine ⟨?_, rfl⟩
    simp only [accept_response, h]
  · intro c h hne
    simp only [accept_response, h]
    rw [if_neg hne]

theorem c4_witness :
    accept_response {} c4st c4respNone {} = (c4st, Except.error Err.unmatchedResponse) ∧
    accept_response {} c4st c4resp {} =
      (c4st, Except.error (Err.wrongState CState.invitation)) := by
  constructor
  · exact ((c4_accept_response_lookup_and_errors {} c4st c4respNone {}).2.2.1 (by rfl)).1
  · exact (c4_accept_response_lookup_and_errors {} c4st c4resp {}).2.2.2 c4rec (by rfl)
      (by simp [c4rec])

/-- C7: `create_invitation` with `public = true` fails PublicInvitesDisabled
when the setting is off, NoPublicDid when the wallet has no public DID, and
MultiUseWithPublic when `multi_use` is set; otherwise it returns a null record
and an invitation whose service is the public DID reference, with the agent
state (in particular the record store) unchanged in every public case. -/
theorem c7_create_invitation_public (ctx : Ctx) (st : AgentState)
    (my_label my_endpoint : Option String) (auto_accept : Option Bool)
    (multi_use : Bool) (alia : Option String) (include_handshake : Bool) :
    (ctx.settings.public_invites = false →
      create_invitation ctx st my_label my_endpoint auto_accept true multi_use alia
          include_handshake
        = (st, Except.error Err.publicInvitesDisabled)) ∧
    (ctx.settings.public_invites = true → st.wallet.publicDid = none →
      create_invitation ctx st my_label my_endpoint auto_accept true multi_use alia
          include_handshake
        = (st, Except.error Err.noPublicDid)) ∧
    (∀ pd, ctx.settings.public_invites = true → st.wallet.publicDid = some pd →
      multi_use = true →
      create_invitation ctx st my_label my_endpoint auto_accept true multi_use alia
          include_handshake
        = (st, Except.error Err.multiUseWithPublic)) ∧
    (∀ pd, ctx.settings.public_invites = true → st.wallet.publicDid = some pd →
      multi_use = false →
      ∃ inv, create_invitation ctx st my_label my_endpoint auto_accept true multi_use alia
          include_handshake
        = (st, Except.ok (none, inv)) ∧
        inv.service = [OOBServiceEntry.did ("did:sov:" ++ pd.did)]) := by
  refine ⟨?_, ?_, ?_, ?_⟩
  · intro h
    simp only [create_invitation, h]
    rfl
  · intro h hpd
    simp only [create_invitation, h, hpd]
    rfl
  · intro pd h hpd hm
    simp only [create_invitation, h, hpd, hm]
    rfl
  · intro pd h hpd hm
    refine ⟨{ label := match my_label with
                | some l => some l
                | none => ctx.settings.default_label,
              handshake_protocols :=
                if include_handshake then ["https://didcomm.org/out-of-band/1.0/invitation"]
                else [],
              service := [.did ("did:sov:" ++ pd.did)] }, ?_, rfl⟩
    simp only [create_invitation, h, hpd, hm]
    rfl

theorem c7_witness :
    create_invitation c7ctxOff c7stPub none none none true false none false
      = (c7stPub, Except.error Err.publicInvitesDisabled) ∧
    create_invitation c7ctxOn c7stNoPub none none none true false none false
      = (c7stNoPub, Except.error Err.noPublicDid) ∧
    create_invitation c7ctxOn c7stPub none none none true true none false
      = (c7stPub, Except.error Err.multiUseWithPublic) ∧
    ∃ inv, create_invitation c7ctxOn c7stPub none none none true false none false
      = (c7stPub, Except.ok (none, inv)) ∧
      inv.service = [OOBServiceEntry.did ("did:sov:" ++ c7pd.did)] := by
  refine ⟨?_, ?_, ?_, ?_⟩
  · exact (c7_create_invitation_public c7ctxOff c7stPub none none none false none false).1 rfl
  · exact (c7_create_invitation_public c7ctxOn c7stNoPub none none none false none false).2.1
      rfl rfl
  · exact (c7_create_invitation_public c7ctxOn c7stPub none none none true none false).2.2.1
      c7pd rfl rfl rfl
  · exact (c7_create_invitation_public c7ctxOn c7stPub none none none false none false).2.2.2
      c7pd rfl rfl rfl

theorem resolveMyDid_ok {w : Wallet} {c : Conn23Record} {i : DIDInfo} {w' : Wallet}
    {c' : Conn23Record} (h : resolveMyDid w c = Except.ok (i, w', c')) :
    c'.connection_id = c.connection_id ∧
    c'.inbound_connection_id = c.inbound_connection_id ∧
    c'.state = c.state ∧
    c'.invitation_key = c.invitation_key := by
  unfold resolveMyDid at h
  split at h
  · split at h
    · exact absurd h (by simp)
    · injection h with h
      injection h with h1 h
      injection h with h2 h3
      subst h3
      exact ⟨rfl, rfl, rfl, rfl⟩
  · split at h
    · exact absurd h (by simp)
    · injection h with h
      injection h with h1 h
      injection h with h2 h3
      subst h3
      exact ⟨rfl, rfl, rfl, rfl⟩

/-- C10: `create_request` computes `pthid` by indexing into the DID Document's
services; for a connection with no inbound routing chain, called with no
explicit endpoint, no default endpoint and no additional endpoints, the
document has no services and the call fails with the bare indexing error (not
a `Conn23ManagerError`) with the record store unchanged (no save). -/
theorem c10_create_request_no_endpoints (ctx : Ctx) (st : AgentState)
    (connection : Conn23Record) (my_label : Option String) (reqId : String)
    (fuel : Nat) (my_info : DIDInfo) (wallet : Wallet) (conn1 : Conn23Record)
    (hres : resolveMyDid st.wallet connection = Except.ok (my_info, wallet, conn1))
    (hinb : connection.inbound_connection_id = none)
    (hdef : ctx.settings.default_endpoint = none)
    (hadd : ctx.settings.additional_endpoints = []) :
    create_request ctx st connection my_label none reqId fuel
      = ({ st with wallet := wallet }, Except.error Err.indexError) ∧
    (create_request ctx st connection my_label none reqId fuel).1.recs = st.recs ∧
    Err.indexError.isConn23ManagerError = false := by
  have hinb1 : conn1.inbound_connection_id = none := by
    rw [(resolveMyDid_ok hres).2.1, hinb]
  have hmain : create_request ctx st connection my_label none reqId fuel
      = ({ st with wallet := wallet }, Except.error Err.indexError) := by
    simp only [create_request, hres]
    simp only [defaultEndpoints, hdef, hadd]
    simp only [create_did_document, hinb1]
    simp only [walkRouters]
    rfl
  refine ⟨hmain, ?_, rfl⟩
  rw [hmain]

theorem c10_witness :
    create_request {} c10st c10conn none none "r1" 0
      = ({ c10st with wallet := c10st.wallet }, Except.error Err.indexError) ∧
    (create_request {} c10st c10conn none none "r1" 0).1.recs = c10st.recs ∧
    Err.indexError.isConn23ManagerError = false :=
  c10_create_request_no_endpoints {} c10st c10conn none "r1" 0 c10info c10st.wallet
    c10conn (by rfl) rfl rfl rfl

/-- C6: `find_inbound_connection` computes the cache key exactly when both
verkeys are present; on a cache hit it repopulates the receipt's DID fields
from the entry and loads the record by the cached id without invoking the
resolver; on a miss it invokes the resolver exactly once and caches a found
connection with TTL 3600; with a missing verkey or no cache it falls through
to the resolver (one invocation, cache untouched). -/
theorem c6_find_inbound_connection_cache (recs : RecordStore) (cache : Option Cache)
    (resolve : MessageReceipt → MessageReceipt × Option Conn23Record)
    (receipt : MessageReceipt) :
    ((cacheKey receipt).isSome ↔
      (receipt.sender_verkey.isSome ∧ receipt.recipient_verkey.isSome)) ∧
    (∀ s r, receipt.sender_verkey = some s → receipt.recipient_verkey = some r →
      cacheKey receipt = some ("connection_by_verkey::" ++ s ++ "::" ++ r)) ∧
    (∀ k c v conn, cacheKey receipt = some k → cache = some c → Cache.get c k = some v →
      retrieve_by_id recs v.id = some conn →
      find_inbound_connection recs cache resolve receipt =
        (some c,
         { receipt with sender_did := v.sender_did,
                        recipient_did_public := v.recipient_did_public,
                        recipient_did := v.recipient_did },
         0, Except.ok (some conn))) ∧
    (∀ k c, cacheKey receipt = some k → cache = some c → Cache.get c k = none →
      find_inbound_connection recs cache resolve receipt =
        (some (match (resolve receipt).2 with
               | some conn =>
                 Cache.setResult c k
                   { id := conn.connection_id,
                     sender_did := (resolve receipt).1.sender_did,
                     recipient_did := (resolve receipt).1.recipient_did,
                     recipient_did_public := (resolve receipt).1.recipient_did_public }
                   3600
               | none => c),
         (resolve receipt).1, 1, Except.ok (resolve receipt).2)) ∧
    (cacheKey receipt = none ∨ cache = none →
      find_inbound_connection recs cache resolve receipt =
        (cache, (resolve receipt).1, 1, Except.ok (resolve receipt).2)) := by
  refine ⟨?_, ?_, ?_, ?_, ?_⟩
  · cases hs : receipt.sender_verkey <;> cases hr : receipt.recipient_verkey <;>
      simp [cacheKey, hs, hr]
  · intro s r hs hr
    simp [cacheKey, hs, hr]
  · intro k c v conn hk hc hv hret
    subst hc
    simp only [find_inbound_connection, hk, hv, hret]
  · intro k c hk hc hv
    subst hc
    simp only [find_inbound_connection, hk, hv]
  · intro h
    cases h with
    | inl hk =>
      cases cache with
      | none => simp only [find_inbound_connection, hk]
      | some c => simp only [find_inbound_connection, hk]
    | inr hc =>
      subst hc
      cases hk : cacheKey receipt with
      | none => simp only [find_inbound_connection, hk]
      | some k => simp only [find_inbound_connection, hk]

theorem c6_witness :
    find_inbound_connection c6recs (some c6cacheHit) c6resolve c6receipt =
      (some c6cacheHit,
       { c6receipt with sender_did := c6val.sender_did,
                        recipient_did_public := c6val.recipient_did_public,
                        recipient_did := c6val.recipient_did },
       0, Except.ok (some c6rec)) ∧
    find_inbound_connection c6recs (some []) c6resolve c6receipt =
      (some (match (c6resolve c6receipt).2 with
             | some conn =>
               Cache.setResult [] "connection_by_verkey::SV::RV"
                 { id := conn.connection_id,
                   sender_did := (c6resolve c6receipt).1.sender_did,
                   recipient_did := (c6resolve c6receipt).1.recipient_did,
                   recipient_did_public := (c6resolve c6receipt).1.recipient_did_public }
                 3600
             | none => []),
       (c6resolve c6receipt).1, 1, Except.ok (c6resolve c6receipt).2) ∧
    find_inbound_connection c6recs none c6resolve c6receipt =
      (none, (c6resolve c6receipt).1, 1, Except.ok (c6resolve c6receipt).2) := by
  refine ⟨?_, ?_, ?_⟩
  · exact (c6_find_inbound_connection_cache c6recs (some c6cacheHit) c6resolve
      c6receipt).2.2.1 "connection_by_verkey::SV::RV" c6cacheHit c6val c6rec rfl rfl rfl rfl
  · exact (c6_find_inbound_connection_cache c6recs (some []) c6resolve
      c6receipt).2.2.2.1 "connection_by_verkey::SV::RV" [] rfl rfl rfl
  · exact (c6_find_inbound_connection_cache c6recs none c6resolve
      c6receipt).2.2.2.2 (Or.inr rfl)

/-- C1: on the requester side, after a matching response is accepted and the
Complete message is dispatched through an available responder,
`accept_response` re-saves the record with state RESPONSE, not COMPLETED: the
returned (and last-saved) record state is `CState.response`. -/
theorem c1_accept_response_saves_response_not_completed :
    (accept_response c1ctx c1st c1resp {}).2 =
      Except.ok ({ c1rec with their_did := some "did:peer", state := CState.response },
                 [SentMsg.complete (some "t1")]) ∧
    (accept_response c1ctx c1st c1resp {}).1.recs =
      [{ c1rec with their_did := some "did:peer", state := CState.response }] ∧
    CState.response ≠ CState.completed := by
  refine ⟨rfl, rfl, ?_⟩
  intro h
  cases h

theorem walkRouters_chain (recs : RecordStore) (store : Storage) (di : DIDInfo)
    (hops : List Hop) :
    ∀ startId fuel (rks : List PublicKey) (idx : Nat) (eps : List String),
      chainOk recs store startId hops = true → hops.length ≤ fuel →
      walkRouters recs store di fuel startId rks idx eps =
        Except.ok (rks ++ hops.map (fun h => routingKey di idx h.rk0),
                   lastEndpoint hops eps) := by
  induction hops with
  | nil =>
    intro startId fuel rks idx eps hchain hfuel
    cases startId with
    | none => cases fuel <;> simp [walkRouters, lastEndpoint]
    | some rid => simp [chainOk] at hchain
  | cons h hs ih =>
    intro startId fuel rks idx eps hchain hfuel
    cases startId with
    | none => simp [chainOk] at hchain
    | some rid =>
      cases fuel with
      | zero => simp at hfuel
      | succ fuel =>
        simp only [chainOk, Bool.and_eq_true, decide_eq_true_eq] at hchain
        obtain ⟨⟨⟨⟨⟨⟨⟨hret, hst⟩, htd⟩, hfetch⟩, hsvc⟩, hep⟩, hrk⟩, hrest⟩ := hchain
        have hlen : hs.length ≤ fuel := by
          simp only [List.length_cons] at hfuel
          omega
        have hstep : walkRouters recs store di (fuel + 1) (some rid) rks idx eps =
            walkRouters recs store di fuel h.router.inbound_connection_id
              (rks ++ [routingKey di idx h.rk0]) idx [h.svc.endpoint] := by
          simp only [walkRouters, hret]
          rw [if_pos hst]
          simp only [htd, hfetch, hsvc]
          rw [if_neg hep]
          simp only [hrk]
        have hlast : lastEndpoint hs [h.svc.endpoint] = lastEndpoint (h :: hs) eps := by
          cases hs with
          | nil => simp [lastEndpoint]
          | cons h2 hs2 =>
            simp only [lastEndpoint, List.getLast?_cons_cons]
            cases hgl : (h2 :: hs2).getLast? with
            | none => exact absurd hgl (by simp)
            | some hl => rfl
        rw [hstep, ih h.router.inbound_connection_id fuel
          (rks ++ [routingKey di idx h.rk0]) idx [h.svc.endpoint] hrest hlen, hlast]
        rw [List.append_assoc, List.singleton_append, List.map_cons]

/-- C2 (amended): for every non-empty well-formed chain of inbound routers,
`create_did_document` emits one routing public key per hop, but every one of
them carries the id `routing-1` (the source sets `router_idx` to 1 once and
never increments it), overrides the endpoints with the last-walked router's
first-service endpoint, and emits an `IndyAgent` service with recipient keys
the primary key and routing keys the collected chain. -/
theorem c2_create_did_document_routing_chain (recs : RecordStore) (store : Storage)
    (di : DIDInfo) (rid : Nat) (h0 : Hop) (hs : List Hop) (fuel : Nat)
    (eps0 : List String)
    (hchain : chainOk recs store (some rid) (h0 :: hs) = true)
    (hfuel : (h0 :: hs).length ≤ fuel) :
    ∃ last : Hop, (h0 :: hs).getLast? = some last ∧
      create_did_document fuel recs store di (some rid) eps0 =
        Except.ok
          { did := di.did,
            pubkey := [primaryKey di],
            service := [{ did := di.did, ident := "indy", stype := "IndyAgent",
                          recip_keys := [primaryKey di],
                          routing_keys := (h0 :: hs).map (fun h => routingKey di 1 h.rk0),
                          endpoint := last.svc.endpoint }] } ∧
      ((h0 :: hs).map (fun h => (routingKey di 1 h.rk0).ident))
        = List.replicate (h0 :: hs).length "routing-1" := by
  obtain ⟨last, hlast⟩ : ∃ l, (h0 :: hs).getLast? = some l := by
    cases hgl : (h0 :: hs).getLast? with
    | none => exact absurd hgl (by simp)
    | some l => exact ⟨l, rfl⟩
  refine ⟨last, hlast, ?_, ?_⟩
  · unfold create_did_document
    rw [walkRouters_chain recs store di (h0 :: hs) (some rid) fuel [] 1 eps0 hchain hfuel]
    have hle : lastEndpoint (h0 :: hs) eps0 = [last.svc.endpoint] := by
      unfold lastEndpoint
      rw [hlast]
    rw [hle]
    show Except.ok (addServices di.did (primaryKey di)
        ([] ++ (h0 :: hs).map (fun h => routingKey di 1 h.rk0))
        (DIDDoc.setKey { did := di.did } (primaryKey di)) 0 [last.svc.endpoint]) = _
    simp [addServices, DIDDoc.setKey, DIDDoc.setService, serviceIdent]
  · have hconst : (fun h : Hop => (routingKey di 1 h.rk0).ident) =
        (fun _ : Hop => "routing-1") := funext (fun _ => rfl)
    rw [hconst, List.map_const']

/-- C2 counterexample: with a two-router chain the routing-key ids emitted by
`create_did_document` are `routing-1, routing-1`, not the consecutively
numbered `routing-1, routing-2` the claim states. -/
theorem c2_counterexample_routing_idents :
    (create_did_document 2 c2recs c2store c2di (some 10) []).map routingIdentsOfDoc
      = Except.ok [["routing-1", "routing-1"]] ∧
    (create_did_document 2 c2recs c2store c2di (some 10) []).map routingIdentsOfDoc
      ≠ Except.ok [["routing-1", "routing-2"]] := by
  refine ⟨rfl, ?_⟩
  intro h
  rw [show (create_did_document 2 c2recs c2store c2di (some 10) []).map routingIdentsOfDoc
        = Except.ok [["routing-1", "routing-1"]] from rfl] at h
  injection h with h2
  exact absurd h2 (by decide)

theorem c2_witness :
    (create_did_document 1 c2recs c2store c2di (some 11) []).map routingIdentsOfDoc
      = Except.ok [["routing-1"]] := by
  obtain ⟨last, hlast, heq, hids⟩ :=
    c2_create_did_document_routing_chain c2recs c2store c2di 11 c2hop [] 1 []
      (by decide) (by decide)
  have hl : c2hop = last := by
    have h1 : some c2hop = some last := by rw [← hlast]; rfl
    exact Option.some.inj h1
  subst hl
  rw [heq]
  rfl

theorem mem_le_foldr_max (x : Nat) (l : List Nat) (h : x ∈ l) :
    x ≤ l.foldr max 0 := by
  induction l with
  | nil => cases h
  | cons a t ih =>
    rcases List.mem_cons.mp h with rfl | h'
    · exact le_max_left _ _
    · exact le_trans (ih h') (le_max_right _ _)

theorem freshId_ne_mem {s : RecordStore} {r : Conn23Record} (h : r ∈ s) :
    r.connection_id ≠ freshId s := by
  have hle : r.connection_id ≤ (s.map (fun x => x.connection_id)).foldr max 0 :=
    mem_le_foldr_max _ _ (List.mem_map_of_mem _ h)
  unfold freshId
  omega

theorem filter_map_of_fix {α : Type} {p : α → Bool} {f : α → α}
    (hp : ∀ a, p (f a) = p a) (hf : ∀ a, p a = true → f a = a) (l : List α) :
    (l.map f).filter p = l.filter p := by
  induction l with
  | nil => rfl
  | cons a t ih =>
    simp only [List.map_cons, List.filter_cons, hp]
    by_cases h : p a = true
    · rw [if_pos h, if_pos h, hf a h, ih]
    · rw [if_neg h, if_neg h, ih]

theorem filter_saveRecord_ne (s : RecordStore) (r : Conn23Record) (pid : Nat)
    (h : r.connection_id ≠ pid) :
    (saveRecord s r).filter (fun x => x.connection_id == pid)
      = s.filter (fun x => x.connection_id == pid) := by
  unfold saveRecord
  by_cases hmem : s.any (fun x => x.connection_id == r.connection_id) = true
  · rw [if_pos hmem]
    apply filter_map_of_fix
    · intro a
      by_cases ha : (a.connection_id == r.connection_id) = true
      · rw [if_pos ha]
        have ha' : a.connection_id = r.connection_id := by simpa using ha
        have h1 : (r.connection_id == pid) = false := by simpa using h
        have h2 : (a.connection_id == pid) = false := by rw [ha']; exact h1
        rw [h1, h2]
      · rw [if_neg ha]
    · intro a hp
      have hap : a.connection_id = pid := by simpa using hp
      have hne2 : ¬((a.connection_id == r.connection_id) = true) := by
        simp only [beq_iff_eq]
        rw [hap]
        exact fun hc => h hc.symm
      rw [if_neg hne2]
  · rw [if_neg hmem, List.filter_append]
    have h1 : (r.connection_id == pid) = false := by simpa using h
    simp [h1]

theorem create_response_recs_filter (ctx : Ctx) (st : AgentState) (c : Conn23Record)
    (ep : Option String) (fuel : Nat) (pid : Nat) (hne : c.connection_id ≠ pid) :
    ((create_response ctx st c ep fuel).1.recs.filter (fun x => x.connection_id == pid)
       = st.recs.filter (fun x => x.connection_id == pid)) ∧
    (∀ resp c', (create_response ctx st c ep fuel).2 = Except.ok (resp, c') →
       c'.connection_id = c.connection_id) := by
  unfold create_response
  by_cases hst : c.state = CState.request
  · rw [if_pos hst]
    dsimp only
    cases hreq : retrieve_request st c with
    | none => exact ⟨rfl, fun resp c' hc => absurd hc (by simp)⟩
    | some request =>
      cases hres : resolveMyDid st.wallet c with
      | error e => exact ⟨rfl, fun resp c' hc => absurd hc (by simp)⟩
      | ok trip =>
        obtain ⟨my_info, wallet, c1⟩ := trip
        have hid1 : c1.connection_id = c.connection_id := (resolveMyDid_ok hres).1
        dsimp only
        cases hdoc : create_did_document fuel st.recs st.store my_info
            c1.inbound_connection_id (defaultEndpoints ctx.settings ep) with
        | error e => exact ⟨rfl, fun resp c' hc => absurd hc (by simp)⟩
        | ok did_doc =>
          cases hik : c1.invitation_key with
          | none => exact ⟨rfl, fun resp c' hc => absurd hc (by simp)⟩
          | some ikey =>
            dsimp only
            constructor
            · refine filter_saveRecord_ne st.recs _ pid ?_
              show c1.connection_id ≠ pid
              rw [hid1]
              exact hne
            · intro resp c' hc
              injection hc with hc
              injection hc with hc1 hc2
              rw [← hc2]
              exact hid1
  · rw [if_neg hst]
    exact ⟨rfl, fun resp c' hc => absurd hc (by simp)⟩

theorem receive_request_finish_filter (ctx : Ctx) (st : AgentState) (c : Conn23Record)
    (request : Conn23Request) (fuel : Nat) (pid : Nat) (hne : c.connection_id ≠ pid) :
    ((receive_request_finish ctx st c request fuel).1.recs.filter
        (fun x => x.connection_id == pid))
      = st.recs.filter (fun x => x.connection_id == pid) := by
  unfold receive_request_finish
  dsimp only
  by_cases hacc : c.accept = CAccept.auto
  · rw [if_pos hacc]
    rcases hcr : create_response ctx
        { st with reqAtt := st.reqAtt ++ [(c.connection_id, request)] } c none fuel
      with ⟨st1, res⟩
    have hfilter : st1.recs.filter (fun x => x.connection_id == pid)
        = st.recs.filter (fun x => x.connection_id == pid) := by
      have h1 := (create_response_recs_filter ctx
        { st with reqAtt := st.reqAtt ++ [(c.connection_id, request)] } c none fuel pid hne).1
      rw [hcr] at h1
      exact h1
    cases res with
    | error e => exact hfilter
    | ok pr =>
      obtain ⟨response, c2⟩ := pr
      have hid2 : c2.connection_id = c.connection_id := by
        have h2 := (create_response_recs_filter ctx
          { st with reqAtt := st.reqAtt ++ [(c.connection_id, request)] } c none fuel pid hne).2
        rw [hcr] at h2
        exact h2 response c2 rfl
      dsimp only
      by_cases hr : ctx.hasResponder = true
      · rw [if_pos hr]
        dsimp only
        have hs1 := filter_saveRecord_ne st1.recs { c2 with state := CState.response } pid
          (by show c2.connection_id ≠ pid; rw [hid2]; exact hne)
        rw [hs1]
        exact hfilter
      · rw [if_neg hr]
        exact hfilter
  · rw [if_neg hacc]

theorem receive_request_tail_filter (ctx : Ctx) (st : AgentState) (c : Conn23Record)
    (ck : Option String) (request : Conn23Request) (fuel : Nat) (pid : Nat)
    (hne : c.connection_id ≠ pid) :
    ((receive_request_tail ctx st (some c) ck request fuel).1.recs.filter
        (fun x => x.connection_id == pid))
      = st.recs.filter (fun x => x.connection_id == pid) := by
  unfold receive_request_tail
  cases hatt : request.did_doc_attach with
  | none => rfl
  | some attach =>
    dsimp only
    by_cases h1 : (!attach.hasData) = true
    · rw [if_pos h1]
    · rw [if_neg h1]
      by_cases h2 : (!attach.sigValid) = true
      · rw [if_pos h2]
      · rw [if_neg h2]
        by_cases h3 : request.did ≠ attach.doc.did
        · rw [if_pos h3]
        · rw [if_neg h3]
          cases hsd : store_did_document st.store attach.doc with
          | error e => rfl
          | ok store1 =>
            dsimp only
            have hrec := receive_request_finish_filter ctx
              { st with store := store1,
                        recs := saveRecord st.recs
                          { c with their_label := request.label,
                                   their_did := some request.did,
                                   state := CState.request } }
              { c with their_label := request.label,
                       their_did := some request.did,
                       state := CState.request }
              request fuel pid (by show c.connection_id ≠ pid; exact hne)
            rw [hrec]
            show (saveRecord st.recs _).filter _ = _
            exact filter_saveRecord_ne st.recs _ pid (by show c.connection_id ≠ pid; exact hne)

theorem receive_request_multi_factor (ctx : Ctx) (st : AgentState)
    (request : Conn23Request) (receipt : MessageReceipt) (fuel : Nat) (rvk : String)
    (parent : Conn23Record) (inv : OOBInvitation) (d : DIDInfo) (wallet' : Wallet)
    (hpub : receipt.recipient_did_public = false)
    (hvk : receipt.recipient_verkey = some rvk)
    (hfind : retrieve_by_invitation_key st.recs rvk CRole.responder = some parent)
    (hinv : retrieve_invitation st parent = some inv)
    (hmulti : parent.invitation_mode = InvMode.multi)
    (hnew : st.wallet.create_local_did = Except.ok (d, wallet')) :
    receive_request ctx st request receipt fuel =
      receive_request_tail ctx
        { st with wallet := wallet',
                  recs := saveRecord st.recs (multiChild st.recs parent d) }
        (some (multiChild st.recs parent d)) parent.invitation_key request fuel := by
  unfold receive_request
  rw [if_neg (show ¬(receipt.recipient_did_public = true) by simp [hpub])]
  simp only [hvk, hfind, hinv]
  rw [if_pos hmulti]
  simp only [hnew]

/-- C3: `receive_request` against a MULTI-use invitation record never mutates
the parent (its entry in the store is unchanged by the whole operation);
it clones a fresh child record (newly created local DID as `my_did`, state
REQUEST, the parent's `accept`, `their_role` and `invitation_key`) and all
further processing runs against the child only (the operation factors through
the tail applied to the child). -/
theorem c3_receive_request_multi_clone (ctx : Ctx) (st : AgentState)
    (request : Conn23Request) (receipt : MessageReceipt) (fuel : Nat) (rvk : String)
    (parent : Conn23Record) (inv : OOBInvitation) (d : DIDInfo) (wallet' : Wallet)
    (hpub : receipt.recipient_did_public = false)
    (hvk : receipt.recipient_verkey = some rvk)
    (hfind : retrieve_by_invitation_key st.recs rvk CRole.responder = some parent)
    (hinv : retrieve_invitation st parent = some inv)
    (hmulti : parent.invitation_mode = InvMode.multi)
    (hnew : st.wallet.create_local_did = Except.ok (d, wallet')) :
    receive_request ctx st request receipt fuel =
      receive_request_tail ctx
        { st with wallet := wallet',
                  recs := saveRecord st.recs (multiChild st.recs parent d) }
        (some (multiChild st.recs parent d)) parent.invitation_key request fuel ∧
    (multiChild st.recs parent d).state = CState.request ∧
    (multiChild st.recs parent d).my_did = some d.did ∧
    (multiChild st.recs parent d).accept = parent.accept ∧
    (multiChild st.recs parent d).their_role = parent.their_role ∧
    (multiChild st.recs parent d).invitation_key = parent.invitation_key ∧
    (receive_request ctx st request receipt fuel).1.recs.filter
        (fun x => x.connection_id == parent.connection_id)
      = st.recs.filter (fun x => x.connection_id == parent.connection_id) ∧
    parent ∈ (receive_request ctx st request receipt fuel).1.recs := by
  have hfac := receive_request_multi_factor ctx st request receipt fuel rvk parent inv d
    wallet' hpub hvk hfind hinv hmulti hnew
  have hmem : parent ∈ st.recs := List.mem_of_find?_eq_some hfind
  have hchild_ne : (multiChild st.recs parent d).connection_id ≠ parent.connection_id := by
    show freshId st.recs ≠ parent.connection_id
    exact fun hc => freshId_ne_mem hmem hc.symm
  have hfilter : (receive_request ctx st request receipt fuel).1.recs.filter
      (fun x => x.connection_id == parent.connection_id)
      = st.recs.filter (fun x => x.connection_id == parent.connection_id) := by
    rw [hfac]
    rw [receive_request_tail_filter ctx _ _ _ _ _ _ hchild_ne]
    show (saveRecord st.recs (multiChild st.recs parent d)).filter _ = _
    exact filter_saveRecord_ne st.recs _ _ hchild_ne
  refine ⟨hfac, rfl, rfl, rfl, rfl, rfl, hfilter, ?_⟩
  have hp : parent ∈ st.recs.filter (fun x => x.connection_id == parent.connection_id) :=
    List.mem_filter.mpr ⟨hmem, by simp⟩
  rw [← hfilter] at hp
  exact (List.mem_filter.mp hp).1

theorem c3_witness :
    (receive_request {} c3st c3req c3receipt 0).1.recs.filter
        (fun x => x.connection_id == c3parent.connection_id)
      = c3st.recs.filter (fun x => x.connection_id == c3parent.connection_id) ∧
    c3parent ∈ (receive_request {} c3st c3req c3receipt 0).1.recs := by
  have h := c3_receive_request_multi_clone {} c3st c3req c3receipt 0 "IK5" c3parent c3inv
    c3d c3wallet' rfl rfl (by rfl) (by rfl) rfl (by rfl)
  exact ⟨h.2.2.2.2.2.2.1, h.2.2.2.2.2.2.2⟩

/-- C9: in `receive_request` against a MULTI invitation the fresh child record
is saved before the attachment signature is verified and before the
`request.did` / document DID match is checked: when verification fails or the
DIDs mismatch the operation raises the corresponding error, yet the final
state has the child stored (and the DID-document store untouched). -/
theorem c9_receive_request_multi_persists_child (ctx : Ctx) (st : AgentState)
    (request : Conn23Request) (receipt : MessageReceipt) (fuel : Nat) (rvk : String)
    (parent : Conn23Record) (inv : OOBInvitation) (d : DIDInfo) (wallet' : Wallet)
    (attach : SignedAttach)
    (hpub : receipt.recipient_did_public = false)
    (hvk : receipt.recipient_verkey = some rvk)
    (hfind : retrieve_by_invitation_key st.recs rvk CRole.responder = some parent)
    (hinv : retrieve_invitation st parent = some inv)
    (hmulti : parent.invitation_mode = InvMode.multi)
    (hnew : st.wallet.create_local_did = Except.ok (d, wallet'))
    (hatt : request.did_doc_attach = some attach)
    (hdata : attach.hasData = true) :
    (attach.sigValid = false →
      receive_request ctx st request receipt fuel =
        ({ st with wallet := wallet',
                   recs := saveRecord st.recs (multiChild st.recs parent d) },
         Except.error Err.sigVerifyFailed)) ∧
    (attach.sigValid = true → request.did ≠ attach.doc.did →
      receive_request ctx st request receipt fuel =
        ({ st with wallet := wallet',
                   recs := saveRecord st.recs (multiChild st.recs parent d) },
         Except.error Err.didMismatchRequest)) := by
  have hfac := receive_request_multi_factor ctx st request receipt fuel rvk parent inv d
    wallet' hpub hvk hfind hinv hmulti hnew
  constructor
  · intro hsig
    rw [hfac]
    unfold receive_request_tail
    simp only [hatt]
    rw [if_neg (show ¬((!attach.hasData) = true) by simp [hdata])]
    rw [if_pos (show (!attach.sigValid) = true by simp [hsig])]
  · intro hsig hdid
    rw [hfac]
    unfold receive_request_tail
    simp only [hatt]
    rw [if_neg (show ¬((!attach.hasData) = true) by simp [hdata])]
    rw [if_neg (show ¬((!attach.sigValid) = true) by simp [hsig])]
    rw [if_pos hdid]

theorem c9_witness :
    receive_request {} c3st c9req c3receipt 0 =
      ({ c3st with wallet := c3wallet',
                   recs := saveRecord c3st.recs (multiChild c3st.recs c3parent c3d) },
       Except.error Err.sigVerifyFailed) := by
  have h := c9_receive_request_multi_persists_child {} c3st c9req c3receipt 0 "IK5"
    c3parent c3inv c3d c3wallet' { sigValid := false, doc := { did := "did:bob" } }
    rfl rfl (by rfl) (by rfl) rfl (by rfl) rfl rfl
  exact h.1 rfl
